import Mathlib

/-!
Shallow embedding of the news-retrieval core of `src/app.py` (an F&O news
dashboard).  The retrieval core consists of:

  * `fetch_news_newsapi` — primary fetcher (NewsAPI), normalizing raw JSON
    records into article dictionaries;
  * `fetch_news_rss`     — fallback fetcher (Google News RSS), filtering feed
    entries by publish date and normalizing them;
  * `get_news`           — orchestrator: chooses primary vs fallback, sorts by
    `publishedAt` descending and truncates to 50;
  * `full_query`         — sidebar logic merging the user keyword filter into
    the default boolean query.

Python dictionaries with fixed key sets become structures with `Option`-valued
fields (Python `None` / absent keys become `none`).  `datetime` values are
modelled as `Nat` timestamps (seconds), with `timedelta(days=d)` being
`d * 86400` and `datetime.isoformat` an injective rendering to a string.
Python exceptions are modelled with `Except PyErr`.  In particular the
semantics of CPython `sorted` with a key function is modelled faithfully:
comparing `None` with anything (including `None`) raises `TypeError`, and
`sorted` performs at least one comparison involving every element whenever the
list has length at least two, so a list of two or more articles whose sort
keys include a `None` raises `TypeError`.
-/

/-- Python exceptions that can arise in the retrieval core. -/
inductive PyErr where
  /-- `TypeError`, e.g. comparing `None` with `str` inside `sorted`. -/
  | typeError : PyErr
  /-- `AttributeError`, e.g. calling `.get` on a non-dict value. -/
  | attributeError : PyErr
  /-- `RuntimeError(msg)`, e.g. the synthetic "No NewsAPI key, fallback". -/
  | runtimeError (msg : String) : PyErr
  /-- A network / HTTP / JSON-decode failure raised by `requests` or `r.json()`. -/
  | requestError (msg : String) : PyErr
  deriving Repr, DecidableEq

/-- The uniform article shape produced by both fetchers: a Python dict with
keys `title`, `source`, `url`, `publishedAt`, `description`, each possibly
`None`. -/
structure Article where
  title : Option String
  source : Option String
  url : Option String
  publishedAt : Option String
  description : Option String
  deriving Repr, DecidableEq

/-- `datetime.isoformat()` on a modelled timestamp: an injective string
rendering of the underlying timestamp. -/
def isoformat (t : Nat) : String :=
  toString t

/-- Truthiness of an optional Python string (`if NEWSAPI_KEY:`):
`None` and the empty string are falsy, every other string is truthy. -/
def pyTruthy : Option String → Bool
  | none => false
  | some s => s ≠ ""

/-- Lexicographic comparison of code-point sequences, as CPython compares
`str` values. -/
def pyStrLeAux : List Char → List Char → Bool
  | [], _ => true
  | _ :: _, [] => false
  | c :: cs, d :: ds =>
    if c.toNat < d.toNat then true
    else if d.toNat < c.toNat then false
    else pyStrLeAux cs ds

/-- CPython `a <= b` on strings: lexicographic by Unicode code point. -/
def pyStrLe (a b : String) : Bool :=
  pyStrLeAux a.data b.data

/-- One comparison step of CPython `sorted(..., key=..., reverse=True)` on
articles, used only when every key is a present string: article `a` may stay
before `b` iff `b`'s key is ≤ `a`'s key (descending, stable). -/
def pyDescLe (a b : Article) : Bool :=
  match a.publishedAt, b.publishedAt with
  | some x, some y => pyStrLe y x
  | _, _ => true

/-- Stable insertion of an article into a list already stably sorted by
`pyDescLe`: on a tie the inserted (originally earlier) article stays first,
matching the stability guarantee of CPython `sorted`. -/
def pyInsertDesc (a : Article) : List Article → List Article
  | [] => [a]
  | b :: l => if pyDescLe a b then a :: b :: l else b :: pyInsertDesc a l

/-- Stable sort of articles by `pyDescLe` (descending `publishedAt`,
original order preserved on ties) — the observable behavior of CPython
`sorted(..., reverse=True)` when every sort key is a present string. -/
def pyStableSortDesc : List Article → List Article
  | [] => []
  | a :: l => pyInsertDesc a (pyStableSortDesc l)

/-- CPython semantics of `sorted(news, key=lambda x: x.get("publishedAt", ""),
reverse=True)` as executed in `get_news`.  Both fetchers always store the
`"publishedAt"` key (possibly with value `None`), so the `""` default of
`dict.get` never applies and the sort key of an article is exactly its
(optional) `publishedAt` value.  With at most one element no comparison
happens; otherwise, if any key is `None`, the first comparison touching it
raises `TypeError` (CPython compares every element with some neighbour while
detecting runs); otherwise the call returns the stable descending sort. -/
def pySortArticles (news : List Article) : Except PyErr (List Article) :=
  if news.length ≤ 1 then .ok news
  else if news.any (fun a => a.publishedAt.isNone) then .error .typeError
  else .ok (pyStableSortDesc news)

/-- The tail of `get_news`: `sorted(news, key=..., reverse=True)[:50]`. -/
def sortTrunc (news : List Article) : Except PyErr (List Article) :=
  (pySortArticles news).map (fun l => l.take 50)

deriving instance DecidableEq for Except

/-! ## Primary fetcher: `fetch_news_newsapi` -/

/-- The JSON value stored under the `"source"` key of a NewsAPI record:
either a JSON object (whose `"name"` key may be absent) or a non-object value
such as `null` or a string, on which Python `.get` raises `AttributeError`. -/
inductive NewsSource where
  | dict (name : Option String) : NewsSource
  | nonDict : NewsSource
  deriving Repr, DecidableEq

/-- A raw NewsAPI article record `a`: each top-level key may be absent
(`a.get(...)` then yields `None`, modelled as `none`). -/
structure NewsRecord where
  title : Option String
  source : Option NewsSource
  url : Option String
  publishedAt : Option String
  description : Option String
  deriving Repr, DecidableEq

/-- The decoded JSON body `data = r.json()` of a NewsAPI response: the
`"articles"` key may be absent, in which case `data.get("articles", [])`
yields `[]`. -/
structure NewsData where
  articles : Option (List NewsRecord)
  deriving Repr, DecidableEq

/-- Python `a.get("source", {}).get("name")`: an absent `"source"` key
defaults to `{}` whose `.get("name")` is `None`; a present object yields its
(optional) `"name"`; a present non-object value raises `AttributeError`
because it has no `.get` method. -/
def sourceGetName : Option NewsSource → Except PyErr (Option String)
  | none => .ok none
  | some (.dict name) => .ok name
  | some .nonDict => .error .attributeError

/-- The body of the loop in `fetch_news_newsapi`: normalization of one raw
NewsAPI record into the uniform article shape. -/
def normalizeNewsApi (a : NewsRecord) : Except PyErr Article := do
  let src ← sourceGetName a.source
  .ok { title := a.title
        source := src
        url := a.url
        publishedAt := a.publishedAt
        description := a.description }

/-- `fetch_news_newsapi(query, from_date)`.  The `requests.get` call (with the
query, `from_date.isoformat()` and the `NEWSAPI_KEY` credential among its
parameters) together with `r.json()` is modelled by the function `http`, whose
`Except.error` outcome covers a raised network error as well as a JSON-decode
failure.  On a decoded body the loop over `data.get("articles", [])`
normalizes each record in order, propagating the first raised exception. -/
def fetch_news_newsapi (http : String → Nat → Option String → Except PyErr NewsData)
    (apiKey : Option String) (query : String) (from_date : Nat) :
    Except PyErr (List Article) := do
  let data ← http query from_date apiKey
  (data.articles.getD []).mapM normalizeNewsApi

/-! ## Fallback fetcher: `fetch_news_rss` -/

/-- The value under `'source'` on a feed entry: either a dict-like value with
an optional `'title'`, or a plain string.  (The code guards with
`isinstance(e.get('source'), dict)`, so unlike the primary path no exception
is possible here.) -/
inductive RssSource where
  | dict (title : Option String) : RssSource
  | str (s : String) : RssSource
  deriving Repr, DecidableEq

/-- A parsed feed entry `e`.  `published_parsed` models
`e.published_parsed` turned into a `datetime`: `none` when the attribute is
absent or falsy (no parseable publish time), `some t` the timestamp. -/
structure RssEntry where
  title : Option String
  link : Option String
  source : Option RssSource
  published_parsed : Option Nat
  summary : Option String
  deriving Repr, DecidableEq

/-- Python `e.get('source', {}).get('title') if isinstance(e.get('source'),
dict) else e.get('source')`. -/
def rssSourceName : Option RssSource → Option String
  | some (.dict title) => title
  | some (.str s) => some s
  | none => none

/-- Normalization of one surviving feed entry into the uniform article shape
(the `arts.append({...})` in `fetch_news_rss`). -/
def rssArticle (e : RssEntry) : Article :=
  { title := e.title
    source := rssSourceName e.source
    url := e.link
    publishedAt := e.published_parsed.map isoformat
    description := e.summary }

/-- The per-entry keep condition of the loop in `fetch_news_rss`: the negation
of `if pub and pub < from_date: continue`. -/
def keepEntry (from_date : Nat) (e : RssEntry) : Bool :=
  match e.published_parsed with
  | some t => !decide (t < from_date)
  | none => true

/-- `fetch_news_rss(query, from_date)`, given the parsed feed entries (the
query only selects which feed is fetched; the entry list stands for
`feedparser.parse(feed_url).entries`).  Entries whose parsed publish time
predates `from_date` are skipped; every other entry is normalized and
appended in feed order. -/
def fetch_news_rss (entries : List RssEntry) (from_date : Nat) : List Article :=
  match entries with
  | [] => []
  | e :: rest =>
    match e.published_parsed with
    | some t =>
      if t < from_date then fetch_news_rss rest from_date
      else rssArticle e :: fetch_news_rss rest from_date
    | none => rssArticle e :: fetch_news_rss rest from_date

/-! ## Orchestrator: `get_news` -/

/-- Which fetcher bodies `get_news` executed, in order. -/
inductive FetchCall where
  | primaryCall : FetchCall
  | fallbackCall : FetchCall
  deriving Repr, DecidableEq

/-- The `try`/`except` block of `get_news`, with the two fetchers abstracted
as functions of `(query, from_date)`: when `NEWSAPI_KEY` is truthy the primary
fetcher runs, and any exception it raises is caught and answered by one
fallback attempt; when the key is falsy the synthetic
`RuntimeError("No NewsAPI key, fallback")` is raised and caught, so only the
fallback runs.  An exception raised by the fallback itself propagates.  The
second component records which fetchers were invoked, in order. -/
def fetchNews (apiKey : Option String)
    (primary fallback : String → Nat → Except PyErr (List Article))
    (query : String) (from_date : Nat) :
    Except PyErr (List Article) × List FetchCall :=
  if pyTruthy apiKey then
    match primary query from_date with
    | .ok news => (.ok news, [.primaryCall])
    | .error _ => (fallback query from_date, [.primaryCall, .fallbackCall])
  else
    (fallback query from_date, [.fallbackCall])

/-- `get_news(days, query)`: computes `from_date = utcnow() - timedelta(days)`
(modelled at second granularity from the `now` timestamp), runs the
`try`/`except` fetch, then returns
`sorted(news, key=lambda x: x.get("publishedAt", ""), reverse=True)[:50]`.
The second component is the trace of fetcher invocations. -/
def get_news (apiKey : Option String)
    (primary fallback : String → Nat → Except PyErr (List Article))
    (now days : Nat) (query : String) :
    Except PyErr (List Article) × List FetchCall :=
  ((fetchNews apiKey primary fallback query (now - days * 86400)).1 >>= sortTrunc,
   (fetchNews apiKey primary fallback query (now - days * 86400)).2)

/-! ## Query construction: `full_query` -/

/-- `DEFAULT_QUERY` from `src/app.py`. -/
def DEFAULT_QUERY : String :=
  "F&O OR \"futures and options\" OR derivatives OR \"F and O\" OR \"options\" OR \"futures\""

/-- The characters removed by CPython `str.strip()` for ASCII input. -/
def pyIsSpace (c : Char) : Bool :=
  c = ' ' || c = '\t' || c = '\n' || c = '\r' || c = '\x0b' || c = '\x0c'

/-- CPython `query.strip()`: remove leading and trailing whitespace. -/
def pyStrip (s : String) : String :=
  String.mk (((s.data.dropWhile pyIsSpace).reverse.dropWhile pyIsSpace).reverse)

/-- The sidebar logic building `full_query` from the optional user keyword
filter: `f'{DEFAULT_QUERY} OR ({query.strip()})'` when the stripped filter is
truthy (non-empty), else `DEFAULT_QUERY` itself. -/
def full_query (query : String) : String :=
  if pyStrip query ≠ "" then DEFAULT_QUERY ++ " OR (" ++ pyStrip query ++ ")"
  else DEFAULT_QUERY

/-! ## Concrete inputs used to exercise the definitions -/

/-- An article with a present ISO-8601 timestamp. -/
def artTs : Article :=
  { title := some "A", source := none, url := none,
    publishedAt := some "2025-10-10T00:00:00", description := none }

/-- An article with an absent timestamp (its `publishedAt` value is `None`). -/
def artNoTs : Article :=
  { title := some "B", source := none, url := none,
    publishedAt := none, description := none }

/-- Scenario feed entry published 2 days before `now = 1728000` (day 20). -/
def entryTwoDaysAgo : RssEntry :=
  { title := some "two days ago", link := some "u1", source := some (.str "s1"),
    published_parsed := some 1555200, summary := none }

/-- Scenario feed entry published 10 days before `now = 1728000` (day 20). -/
def entryTenDaysAgo : RssEntry :=
  { title := some "ten days ago", link := some "u2", source := some (.str "s2"),
    published_parsed := some 864000, summary := none }

/-- Scenario feed entry with no parseable publish time. -/
def entryNoTimestamp : RssEntry :=
  { title := some "no timestamp", link := some "u3", source := none,
    published_parsed := none, summary := none }

/-- A network layer answering HTTP 200 with a decoded JSON body that lacks the
`"articles"` key (as NewsAPI error payloads such as
`{"status": "error", ...}` do). -/
def httpNoArticles : String → Nat → Option String → Except PyErr NewsData :=
  fun _ _ _ => .ok { articles := none }

/-! ## General lemmas -/

/-- Whatever `sortTrunc` successfully returns has been truncated by
`[:50]` and so has length at most 50. -/
theorem sortTrunc_ok_length (news l : List Article) (h : sortTrunc news = .ok l) :
    l.length ≤ 50 := by
  unfold sortTrunc pySortArticles at h
  by_cases h1 : news.length ≤ 1
  · rw [if_pos h1] at h
    simp only [Except.map] at h
    cases h
    rw [List.length_take]
    omega
  · rw [if_neg h1] at h
    by_cases h2 : news.any fun a => a.publishedAt.isNone
    · rw [if_pos h2] at h
      simp [Except.map] at h
    · rw [if_neg h2] at h
      simp only [Except.map] at h
      cases h
      rw [List.length_take]
      omega

/-- Whatever a fetch outcome followed by `sortTrunc` successfully returns has
length at most 50. -/
theorem bind_sortTrunc_ok_length (x : Except PyErr (List Article)) (l : List Article)
    (h : (x >>= sortTrunc) = .ok l) : l.length ≤ 50 := by
  cases x with
  | error e => simp [Bind.bind, Except.bind] at h
  | ok news =>
    exact sortTrunc_ok_length news l (by simpa [Bind.bind, Except.bind] using h)

example : pySortArticles [] = .ok [] := rfl
example :
    pySortArticles [⟨none, none, none, some "b", none⟩, ⟨none, none, none, some "a", none⟩,
        ⟨none, none, none, some "c", none⟩] =
      .ok [⟨none, none, none, some "c", none⟩, ⟨none, none, none, some "b", none⟩,
        ⟨none, none, none, some "a", none⟩] := by decide
example :
    pySortArticles [⟨none, none, none, some "b", none⟩, ⟨none, none, none, none, none⟩] =
      .error .typeError := by decide

/-! ## Claims -/

/-- C6: when no credential is configured (`NEWSAPI_KEY` unset), `get_news`
invokes only the fallback fetcher — the result is exactly the fallback's
outcome fed through sort/truncate, independent of the primary fetcher, and
the call trace is a single fallback invocation; the synthetic
`RuntimeError("No NewsAPI key, fallback")` is caught inside `get_news` and is
never surfaced. -/
theorem get_news_no_credential_fallback_only
    (primary fallback : String → Nat → Except PyErr (List Article))
    (now days : Nat) (query : String) :
    get_news none primary fallback now days query =
      (fallback query (now - days * 86400) >>= sortTrunc, [.fallbackCall]) := rfl

/-- C10: a configured but empty credential (`NEWSAPI_KEY = ""`) is falsy under
`if NEWSAPI_KEY:`, so `get_news` behaves exactly as with an absent credential:
the primary fetcher is never invoked and only the fallback runs. -/
theorem get_news_empty_key_like_absent
    (primary fallback : String → Nat → Except PyErr (List Article))
    (now days : Nat) (query : String) :
    get_news (some "") primary fallback now days query =
      get_news none primary fallback now days query ∧
    (get_news (some "") primary fallback now days query).2 = [.fallbackCall] :=
  ⟨rfl, rfl⟩

/-- C2: whenever the primary path fails — the credential is falsy (the
synthetic no-credential `RuntimeError`) or the primary fetcher raises any
error — `get_news` attempts the fallback fetcher exactly once and its result
is exactly the fallback's outcome fed through sort/truncate: the primary
error value never flows into the result and the two sources are never
merged. -/
theorem get_news_primary_error_falls_back
    (apiKey : Option String)
    (primary fallback : String → Nat → Except PyErr (List Article))
    (now days : Nat) (query : String)
    (hfail : pyTruthy apiKey = false ∨
      ∃ e, primary query (now - days * 86400) = .error e) :
    (get_news apiKey primary fallback now days query).2.count .fallbackCall = 1 ∧
    (get_news apiKey primary fallback now days query).1 =
      (fallback query (now - days * 86400) >>= sortTrunc) := by
  rcases hfail with hkey | ⟨e, herr⟩
  · unfold get_news fetchNews
    rw [hkey]
    exact ⟨rfl, rfl⟩
  · unfold get_news fetchNews
    by_cases hkey : pyTruthy apiKey
    · rw [if_pos hkey, herr]
      exact ⟨rfl, rfl⟩
    · rw [if_neg hkey]
      exact ⟨rfl, rfl⟩

/-- Witness for C2 at a concrete input: a truthy key with an erroring primary
fetcher. -/
theorem get_news_primary_error_falls_back_witness :
    (get_news (some "k") (fun _ _ => .error (.runtimeError "boom"))
        (fun _ _ => .ok []) 0 7 "q").2.count .fallbackCall = 1 ∧
    (get_news (some "k") (fun _ _ => .error (.runtimeError "boom"))
        (fun _ _ => .ok []) 0 7 "q").1 =
      ((fun (_ : String) (_ : Nat) => (.ok [] : Except PyErr (List Article))) "q"
          (0 - 7 * 86400) >>= sortTrunc) :=
  get_news_primary_error_falls_back (some "k") _ _ 0 7 "q"
    (.inr ⟨.runtimeError "boom", rfl⟩)

/-- C3: for every positive `days` and every query, whenever `get_news` returns
a list at all, that list has length at most 50, no matter what the chosen
fetcher produced. -/
theorem get_news_length_le_50
    (apiKey : Option String)
    (primary fallback : String → Nat → Except PyErr (List Article))
    (now days : Nat) (query : String) (l : List Article)
    (_hdays : 0 < days)
    (h : (get_news apiKey primary fallback now days query).1 = .ok l) :
    l.length ≤ 50 :=
  bind_sortTrunc_ok_length
    (fetchNews apiKey primary fallback query (now - days * 86400)).1 l h

/-- Witness for C3 at a concrete input. -/
theorem get_news_length_le_50_witness :
    0 < 7 ∧ ([] : List Article).length ≤ 50 :=
  ⟨by decide,
    get_news_length_le_50 none (fun _ _ => .error (.runtimeError "x"))
      (fun _ _ => .ok []) 0 7 "q" [] (by decide) rfl⟩

/-- C1 (bug evidence): the claim expects every `get_news` result to be sorted
by `published_at` descending with absent timestamps sorted last, but the
`""` default in `key=lambda x: x.get("publishedAt", "")` is dead — both
fetchers always store the `"publishedAt"` key, with value `None` when the
timestamp is absent — so as soon as the fetched list has two or more articles
and one of them lacks a timestamp, `sorted` compares `None` with a `str` and
raises `TypeError` instead of returning a sequence: here a successful primary
fetch of two articles, one timestamped and one without a timestamp. -/
theorem get_news_absent_timestamp_raises_typeerror :
    get_news (some "k") (fun _ _ => .ok [artTs, artNoTs]) (fun _ _ => .ok [])
        0 7 "q" =
      (.error .typeError, [.primaryCall]) := by decide

/-- C5 (bug evidence): in the scenario `days = 7`, credential absent, feed
entries published 2 days ago / 10 days ago / without timestamp (with
`now = 1728000`, i.e. day 20, so `from_date` is day 13), the fallback fetcher
correctly keeps exactly the 2-days-ago entry and the no-timestamp entry in
that order — but `get_news` then raises `TypeError` while sorting them
(the no-timestamp article's sort key is `None`), instead of returning the two
articles as the claim states. -/
theorem get_news_scenario_days7_raises_typeerror :
    fetch_news_rss [entryTwoDaysAgo, entryTenDaysAgo, entryNoTimestamp]
        (1728000 - 7 * 86400) =
      [rssArticle entryTwoDaysAgo, rssArticle entryNoTimestamp] ∧
    get_news none (fun _ _ => .error (.runtimeError "unused"))
        (fun _ fd => .ok (fetch_news_rss
          [entryTwoDaysAgo, entryTenDaysAgo, entryNoTimestamp] fd))
        1728000 7 "q" =
      (.error .typeError, [.fallbackCall]) := by
  exact ⟨by decide, by decide⟩

/-- C4: the fallback fetcher keeps exactly the entries satisfying `keepEntry`:
an entry whose parsed publish time is strictly earlier than `from_date` is
excluded from the result, and an entry with no parseable publish time is
included. -/
theorem fetch_news_rss_filter_spec (from_date : Nat) (entries : List RssEntry) :
    fetch_news_rss entries from_date =
      (entries.filter (keepEntry from_date)).map rssArticle ∧
    (∀ e t, e.published_parsed = some t → t < from_date →
      keepEntry from_date e = false) ∧
    (∀ e, e.published_parsed = none → keepEntry from_date e = true) := by
  refine ⟨?_, ?_, ?_⟩
  · induction entries with
    | nil => rfl
    | cons e rest ih =>
      cases hp : e.published_parsed with
      | some t =>
        by_cases hlt : t < from_date
        · have hk : keepEntry from_date e = false := by
            unfold keepEntry
            rw [hp]
            simp [hlt]
          simp [fetch_news_rss, hp, hlt, List.filter_cons, hk, ih]
        · have hk : keepEntry from_date e = true := by
            unfold keepEntry
            rw [hp]
            simp [hlt]
          simp [fetch_news_rss, hp, hlt, List.filter_cons, hk, ih]
      | none =>
        have hk : keepEntry from_date e = true := by
          unfold keepEntry
          rw [hp]
        simp [fetch_news_rss, hp, List.filter_cons, hk, ih]
  · intro e t hp hlt
    unfold keepEntry
    rw [hp]
    simp [hlt]
  · intro e hp
    unfold keepEntry
    rw [hp]

/-- Witness for C4 at concrete entries: an entry dated before `from_date` is
excluded and an undated entry is included. -/
theorem fetch_news_rss_filter_spec_witness :
    keepEntry 5 ⟨none, none, none, some 3, none⟩ = false ∧
    keepEntry 5 ⟨none, none, none, none, none⟩ = true :=
  ⟨(fetch_news_rss_filter_spec 5 []).2.1 ⟨none, none, none, some 3, none⟩ 3 rfl
      (by decide),
   (fetch_news_rss_filter_spec 5 []).2.2 ⟨none, none, none, none, none⟩ rfl⟩

/-- C7 counterexample: a response whose decoded body lacks the expected
`"articles"` structure (e.g. a NewsAPI error payload) does NOT make
`fetch_news_newsapi` fail — `data.get("articles", [])` silently defaults to
`[]`, the fetcher returns an empty success, and the orchestrator therefore
never attempts the fallback, contradicting the claim that every
cannot-parse-as-expected response propagates an error and triggers the
fallback. -/
theorem fetch_news_newsapi_missing_articles_not_an_error :
    fetch_news_newsapi httpNoArticles (some "k") "q" 0 = .ok [] ∧
    get_news (some "k") (fetch_news_newsapi httpNoArticles (some "k"))
        (fun _ _ => .ok []) 0 7 "q" =
      (.ok [], [.primaryCall]) :=
  ⟨rfl, rfl⟩

/-- C7 (amended): the primary fetcher propagates an error whenever the network
call errors or the response body cannot be decoded as JSON (and likewise when
a record's `"source"` value is a non-object, where normalization raises); it
never falls back itself, and every such failure reaches the orchestrator,
which then attempts the fallback exactly once — but a well-formed JSON body
merely lacking the `"articles"` key yields an empty success, not an error. -/
theorem fetch_news_newsapi_propagates_errors
    (http : String → Nat → Option String → Except PyErr NewsData)
    (apiKey : Option String)
    (fallback : String → Nat → Except PyErr (List Article))
    (now days : Nat) (query : String) (e : PyErr)
    (hkey : pyTruthy apiKey = true)
    (hhttp : http query (now - days * 86400) apiKey = .error e) :
    fetch_news_newsapi http apiKey query (now - days * 86400) = .error e ∧
    get_news apiKey (fetch_news_newsapi http apiKey) fallback now days query =
      (fallback query (now - days * 86400) >>= sortTrunc,
       [.primaryCall, .fallbackCall]) := by
  have h1 : fetch_news_newsapi http apiKey query (now - days * 86400) = .error e := by
    unfold fetch_news_newsapi
    rw [hhttp]
    rfl
  refine ⟨h1, ?_⟩
  unfold get_news fetchNews
  rw [hkey, h1]
  rfl

/-- Witness for C7 (amended) at a concrete input: a network failure with a
truthy credential. -/
theorem fetch_news_newsapi_propagates_errors_witness :
    fetch_news_newsapi (fun _ _ _ => .error (.requestError "down")) (some "k")
        "q" (0 - 7 * 86400) = .error (.requestError "down") ∧
    get_news (some "k")
        (fetch_news_newsapi (fun _ _ _ => .error (.requestError "down")) (some "k"))
        (fun _ _ => .ok []) 0 7 "q" =
      ((fun (_ : String) (_ : Nat) => (.ok [] : Except PyErr (List Article))) "q"
          (0 - 7 * 86400) >>= sortTrunc,
       [.primaryCall, .fallbackCall]) :=
  fetch_news_newsapi_propagates_errors (fun _ _ _ => .error (.requestError "down"))
    (some "k") (fun _ _ => .ok []) 0 7 "q" (.requestError "down") rfl rfl

/-- C8: normalization is a pure mapping tolerating missing nested fields in
both paths.  Primary path: a record whose `"source"` key is absent, or maps to
an object without a `"name"`, normalizes without raising, the missing pieces
becoming absent values while the remaining fields are copied.  Fallback path:
normalization is a total function, and an absent or title-less `'source'`, or
an absent publish time, become absent values on the produced article. -/
theorem normalization_missing_fields_absent (r : NewsRecord) (e : RssEntry) :
    (r.source = none →
      normalizeNewsApi r =
        .ok ⟨r.title, none, r.url, r.publishedAt, r.description⟩) ∧
    (∀ nm, r.source = some (.dict nm) →
      normalizeNewsApi r =
        .ok ⟨r.title, nm, r.url, r.publishedAt, r.description⟩) ∧
    (e.source = none → (rssArticle e).source = none) ∧
    (∀ t, e.source = some (.dict t) → (rssArticle e).source = t) ∧
    (e.published_parsed = none → (rssArticle e).publishedAt = none) := by
  refine ⟨?_, ?_, ?_, ?_, ?_⟩
  · intro h
    unfold normalizeNewsApi sourceGetName
    rw [h]
    rfl
  · intro nm h
    unfold normalizeNewsApi sourceGetName
    rw [h]
    rfl
  · intro h
    unfold rssArticle rssSourceName
    rw [h]
  · intro t h
    unfold rssArticle rssSourceName
    rw [h]
  · intro h
    unfold rssArticle
    rw [h]
    rfl

/-- Witness for C8 at concrete records with missing nested fields. -/
theorem normalization_missing_fields_absent_witness :
    normalizeNewsApi ⟨some "t", none, none, none, none⟩ =
      .ok ⟨some "t", none, none, none, none⟩ ∧
    normalizeNewsApi ⟨some "t", some (.dict none), none, none, none⟩ =
      .ok ⟨some "t", none, none, none, none⟩ ∧
    (rssArticle ⟨some "t", none, some (.dict none), none, none⟩).source = none :=
  ⟨(normalization_missing_fields_absent ⟨some "t", none, none, none, none⟩
      ⟨none, none, none, none, none⟩).1 rfl,
   (normalization_missing_fields_absent
      ⟨some "t", some (.dict none), none, none, none⟩
      ⟨none, none, none, none, none⟩).2.1 none rfl,
   (normalization_missing_fields_absent ⟨none, none, none, none, none⟩
      ⟨some "t", none, some (.dict none), none, none⟩).2.2.2.1 none rfl⟩

/-- C9: the query sent to the fetchers is built extend-only from
`DEFAULT_QUERY`: a non-whitespace user filter is appended as
`" OR (" ++ stripped filter ++ ")"`, an empty-after-strip filter leaves
`DEFAULT_QUERY` unchanged, and in every case the full query begins with
`DEFAULT_QUERY` — the filter never replaces it. -/
theorem full_query_extend_only (q : String) :
    (pyStrip q ≠ "" →
      full_query q = DEFAULT_QUERY ++ " OR (" ++ pyStrip q ++ ")") ∧
    (pyStrip q = "" → full_query q = DEFAULT_QUERY) ∧
    ∃ rest, full_query q = DEFAULT_QUERY ++ rest := by
  refine ⟨?_, ?_, ?_⟩
  · intro h
    unfold full_query
    rw [if_pos h]
  · intro h
    unfold full_query
    rw [if_neg (by simp [h])]
  · by_cases h : pyStrip q = ""
    · refine ⟨"", ?_⟩
      unfold full_query
      rw [if_neg (by simp [h])]
      simp
    · refine ⟨" OR (" ++ pyStrip q ++ ")", ?_⟩
      unfold full_query
      rw [if_pos h]
      simp [String.append_assoc]

/-- Witness for C9 at concrete filters: a padded filter extends the default
query, a whitespace-only filter leaves it unchanged. -/
theorem full_query_extend_only_witness :
    full_query " nifty " = DEFAULT_QUERY ++ " OR (" ++ pyStrip " nifty " ++ ")" ∧
    full_query "  " = DEFAULT_QUERY :=
  ⟨(full_query_extend_only " nifty ").1 (by decide),
   (full_query_extend_only "  ").2.1 (by decide)⟩
